import Mathlib

/-!
# vyatta-cfg: `cli-shell-api` and the configuration-tree node

A shallow embedding of `src/cli_shell_api.cpp` (the shell API program) and of
`src/cnode/cnode.hpp` (the class `cnode::CfgNode`), followed by the properties
proved about them.

Conventions of the embedding

* `std::string` and `char *` are `String`; `std::vector<T>` is `List T`, with
  `push_back` appending at the end.  `printf("%s", s.c_str())` writes `s`.
* a process run is described by what it wrote to standard output and standard
  error and by its exit status.
* the configuration store (`Cstore`, declared in `cstore/cstore.hpp`) and the
  tree algorithms (`cnode-algorithm.hpp`, `cnode.cpp`) are not part of the two
  files; they enter as the records `Cstore` and `CnodeLib` of their operations.
-/

namespace cnode

/-- The class `cnode::CfgNode` of `cnode.hpp`: its private fields, in the order
of the class.  `_child_nodes` is a `std::vector<CfgNode *>`; the pointed-to
nodes are owned by the node, so the vector is the list of the child trees. -/
structure CfgNode where
  _is_tag : Bool
  _is_leaf : Bool
  _is_multi : Bool
  _is_value : Bool
  _is_default : Bool
  _is_deactivated : Bool
  _is_leaf_typeless : Bool
  _is_invalid : Bool
  _is_empty : Bool
  _exists : Bool
  _name : String
  _value : String
  _values : List String
  _comment : String
  _child_nodes : List CfgNode

namespace CfgNode

/-- Source: `bool isTag() const { return _is_tag; }` -/
def isTag (n : CfgNode) : Bool := n._is_tag

/-- Source: `bool isLeaf() const { return _is_leaf; }` -/
def isLeaf (n : CfgNode) : Bool := n._is_leaf

/-- Source: `bool isMulti() const { return _is_multi; }` -/
def isMulti (n : CfgNode) : Bool := n._is_multi

/-- Source: `bool isValue() const { return _is_value; }` -/
def isValue (n : CfgNode) : Bool := n._is_value

/-- Source: `bool isDefault() const { return _is_default; }` -/
def isDefault (n : CfgNode) : Bool := n._is_default

/-- Source: `bool isDeactivated() const { return _is_deactivated; }` -/
def isDeactivated (n : CfgNode) : Bool := n._is_deactivated

/-- Source: `bool isLeafTypeless() const { return _is_leaf_typeless; }` -/
def isLeafTypeless (n : CfgNode) : Bool := n._is_leaf_typeless

/-- Source: `bool isInvalid() const { return _is_invalid; }` -/
def isInvalid (n : CfgNode) : Bool := n._is_invalid

/-- Source: `bool isEmpty() const { return _is_empty; }` -/
def isEmpty (n : CfgNode) : Bool := n._is_empty

/-- Source: `bool exists() const { return _exists; }` -/
def «exists» (n : CfgNode) : Bool := n._exists

/-- Source: `const std::string& getName() const { return _name; }` -/
def getName (n : CfgNode) : String := n._name

/-- Source: `const std::string& getValue() const { return _value; }` -/
def getValue (n : CfgNode) : String := n._value

/-- Source: `const std::vector<std::string>& getValues() const { return _values; }` -/
def getValues (n : CfgNode) : List String := n._values

/-- Source: `const std::string& getComment() const { return _comment; }` -/
def getComment (n : CfgNode) : String := n._comment

/-- Source: `const std::vector<CfgNode *>& getChildNodes() const { return _child_nodes; }` -/
def getChildNodes (n : CfgNode) : List CfgNode := n._child_nodes

/-- Source: `void addMultiValue(char *val) { _values.push_back(val); }` -/
def addMultiValue (n : CfgNode) (val : String) : CfgNode :=
  { n with _values := n._values ++ [val] }

/-- Source: `void addChildNode(CfgNode *cnode)`: pushes the child, then clears
`_is_empty`. -/
def addChildNode (n : CfgNode) (cnode : CfgNode) : CfgNode :=
  let n1 := { n with _child_nodes := n._child_nodes ++ [cnode] }
  { n1 with _is_empty := false }

/-- Source: `void setValue(char *val) { _value = val; }` -/
def setValue (n : CfgNode) (val : String) : CfgNode :=
  { n with _value := val }

/-- One call of the two list-growing mutators of `CfgNode`. -/
inductive Insertion where
  | child (cnode : CfgNode)
  | multi (val : String)

/-- The node after one such call. -/
def insert (n : CfgNode) : Insertion → CfgNode
  | .child c => n.addChildNode c
  | .multi v => n.addMultiValue v

/-- The node after a sequence of such calls, first call first. -/
def insertAll (n : CfgNode) (calls : List Insertion) : CfgNode :=
  calls.foldl insert n

/-- The child arguments of a sequence of calls, in call order. -/
def insertedChildren : List Insertion → List CfgNode
  | [] => []
  | .child c :: rest => c :: insertedChildren rest
  | .multi _ :: rest => insertedChildren rest

/-- The value arguments of a sequence of calls, in call order. -/
def insertedValues : List Insertion → List String
  | [] => []
  | .child _ :: rest => insertedValues rest
  | .multi v :: rest => v :: insertedValues rest

/-- The predicate of the data model: the child list is empty exactly when
`isEmpty()` is true. -/
def ChildrenEmptyInv (n : CfgNode) : Prop :=
  n.getChildNodes = [] ↔ n.isEmpty = true

/-- A leaf without children: `isLeaf()` holds and the child list is empty. -/
def ChildlessLeaf (n : CfgNode) : Prop :=
  n.isLeaf = true ∧ n.getChildNodes = []

/-- A scalar leaf `name value` without children, values or comment. -/
def sampleLeaf (name value : String) : CfgNode :=
  { _is_tag := false, _is_leaf := true, _is_multi := false, _is_value := false,
    _is_default := false, _is_deactivated := false, _is_leaf_typeless := false,
    _is_invalid := false, _is_empty := true, _exists := true,
    _name := name, _value := value, _values := [], _comment := "",
    _child_nodes := [] }

end CfgNode

end cnode

namespace cli_shell_api

open cnode

/-! ## The collaborators of `cli_shell_api.cpp` -/

/-- Modelled from the spec: the class `Cstore` (`cstore/cstore.hpp`, not among
the files here), as the store contract of spec section 6 with the member names
and argument orders used in `cli_shell_api.cpp`.  `σ` is the state of the
store.  Queries answer from the state; the session primitives that change it
and `loadFile` also give the next state.  A member with an output parameter
(`string& env`, `vector<string>& vvec`, always passed empty) gives the
parameter's final content next to its `bool` result. -/
structure Cstore (σ : Type) where
  /-- Source: `static Cstore *createCstore(bool use_edit)` -/
  createCstore : Bool → σ
  /-- Source: `static Cstore *createCstore(const string& session_id, string& env)` -/
  createCstoreSession : String → σ × String
  getEditEnv : σ → List String → Bool × String
  getEditUpEnv : σ → Bool × String
  getEditResetEnv : σ → Bool × String
  editLevelAtRoot : σ → Bool
  getCompletionEnv : σ → List String → Bool × String
  getEditLevel : σ → List String
  markSessionUnsaved : σ → Bool × σ
  unmarkSessionUnsaved : σ → Bool × σ
  sessionUnsaved : σ → Bool
  sessionChanged : σ → Bool
  teardownSession : σ → Bool × σ
  setupSession : σ → Bool × σ
  inSession : σ → Bool
  cfgPathExists : σ → List String → Bool → Bool
  cfgPathEffective : σ → List String → Bool
  cfgPathGetChildNodes : σ → List String → Bool → List String
  cfgPathGetEffectiveChildNodes : σ → List String → List String
  cfgPathGetValue : σ → List String → Bool → Bool × String
  cfgPathGetEffectiveValue : σ → List String → Bool × String
  cfgPathGetValues : σ → List String → Bool → Bool × List String
  cfgPathGetEffectiveValues : σ → List String → Bool × List String
  validateTmplPath : σ → List String → Bool → Bool
  loadFile : σ → String → Bool × σ

/-- The parts of the `cnode` library that `showCfg` calls and that are defined
outside the two files: the constructor
`CfgNode(Cstore& cstore, std::vector<string>& path_comps, bool active, bool recursive)`
declared in `cnode.hpp` (it receives `path_comps` by non-const reference, so it
gives the built node together with `path_comps` as it leaves it), and the
renderers `cnode::show_cfg` and `cnode::show_cfg_diff` of
`cnode-algorithm.hpp`, which write text to standard output.  The two option
arguments are passed as the `int` globals they are. -/
structure CnodeLib (σ : Type) where
  CfgNode_new : σ → List String → Bool → Bool → CfgNode × List String
  show_cfg : CfgNode → Int → Int → String
  show_cfg_diff : CfgNode → CfgNode → Int → Int → String

/-- The four global `int` options of `showCfg`, all initially `0`;
`getopt_long` stores `1` in the one whose long option is given. -/
structure Options where
  op_show_active_only : Int
  op_show_show_defaults : Int
  op_show_hide_secrets : Int
  op_show_working_only : Int

/-- What running an op function did: the text written to standard output, the
status passed to `exit` (`none` when the function returned to `main`), and the
store afterwards. -/
structure OpResult (σ : Type) where
  stdout : String
  exit_status : Option Nat
  store : σ

/-- Source: `typedef void (*OpFuncT)(Cstore& cstore, const vector<string>& args);`
The result is `none` when the function indexes `args` out of range. -/
abbrev OpFuncT (σ : Type) : Type := σ → List String → Option (OpResult σ)

/-- The struct `OpT`.  `op_name`, the two error strings and `op_func` are
pointers and may be `NULL` (`none`). -/
structure OpT (σ : Type) where
  op_name : Option String
  op_exact_args : Int
  op_exact_error : Option String
  op_min_args : Int
  op_min_error : Option String
  op_use_edit : Bool
  op_func : Option (OpFuncT σ)

/-! ## `print_vec` -/

/-- The loop of `print_vec` from index `i` on, `vec` being the elements from
`i`: each round is
`printf("%s%s%s%s", ((i > 0) ? sep : ""), quote, vec[i].c_str(), quote)`. -/
def print_vec_from (sep quote : String) : List String → Nat → String
  | [], _ => ""
  | v :: rest, i =>
      ((if i > 0 then sep else "") ++ quote ++ v ++ quote)
        ++ print_vec_from sep quote rest (i + 1)

/-- The text that `print_vec(vec, sep, quote)` writes to standard output. -/
def print_vec (vec : List String) (sep quote : String) : String :=
  print_vec_from sep quote vec 0

/-! ## The op functions -/

section ops
variable {σ : Type}

/-- The function returns to `main` having written `out`. -/
def returned (out : String) (cstore : σ) : Option (OpResult σ) :=
  some { stdout := out, exit_status := none, store := cstore }

/-- The function calls `exit(status)` having written `out`. -/
def exited (out : String) (status : Nat) (cstore : σ) : Option (OpResult σ) :=
  some { stdout := out, exit_status := some status, store := cstore }

/-- Outputs an environment string to be evaluated by the caller.  The store
created by `main` is ignored: `Cstore::createCstore(args[0], env)` makes a
session-specific one, whose `env` is printed. -/
def getSessionEnv (api : Cstore σ) (cstore : σ) (args : List String) :
    Option (OpResult σ) :=
  match args[0]? with
  | none => none
  | some session_id =>
      let (_cs, env) := api.createCstoreSession session_id
      returned env cstore

/-- Outputs an environment string; `exit(1)` when `cstore.getEditEnv(args, env)`
fails. -/
def getEditEnv (api : Cstore σ) (cstore : σ) (args : List String) :
    Option (OpResult σ) :=
  let (ok, env) := api.getEditEnv cstore args
  if !ok then exited "" 1 cstore else returned env cstore

/-- Outputs an environment string; `exit(1)` when `cstore.getEditUpEnv(env)` fails. -/
def getEditUpEnv (api : Cstore σ) (cstore : σ) (_args : List String) :
    Option (OpResult σ) :=
  let (ok, env) := api.getEditUpEnv cstore
  if !ok then exited "" 1 cstore else returned env cstore

/-- Outputs an environment string; `exit(1)` when `cstore.getEditResetEnv(env)`
fails. -/
def getEditResetEnv (api : Cstore σ) (cstore : σ) (_args : List String) :
    Option (OpResult σ) :=
  let (ok, env) := api.getEditResetEnv cstore
  if !ok then exited "" 1 cstore else returned env cstore

/-- Source: `exit(cstore.editLevelAtRoot() ? 0 : 1);` -/
def editLevelAtRoot (api : Cstore σ) (cstore : σ) (_args : List String) :
    Option (OpResult σ) :=
  exited "" (if api.editLevelAtRoot cstore then 0 else 1) cstore

/-- Outputs an environment string; `exit(1)` when
`cstore.getCompletionEnv(args, env)` fails. -/
def getCompletionEnv (api : Cstore σ) (cstore : σ) (args : List String) :
    Option (OpResult σ) :=
  let (ok, env) := api.getCompletionEnv cstore args
  if !ok then exited "" 1 cstore else returned env cstore

/-- Outputs a string: `cstore.getEditLevel(lvec); print_vec(lvec, " ", "");` -/
def getEditLevelStr (api : Cstore σ) (cstore : σ) (_args : List String) :
    Option (OpResult σ) :=
  let lvec := api.getEditLevel cstore
  returned (print_vec lvec " " "") cstore

/-- Source: `if (!cstore.markSessionUnsaved()) { exit(1); }` -/
def markSessionUnsaved (api : Cstore σ) (cstore : σ) (_args : List String) :
    Option (OpResult σ) :=
  let (ok, cstore1) := api.markSessionUnsaved cstore
  if !ok then exited "" 1 cstore1 else returned "" cstore1

/-- Source: `if (!cstore.unmarkSessionUnsaved()) { exit(1); }` -/
def unmarkSessionUnsaved (api : Cstore σ) (cstore : σ) (_args : List String) :
    Option (OpResult σ) :=
  let (ok, cstore1) := api.unmarkSessionUnsaved cstore
  if !ok then exited "" 1 cstore1 else returned "" cstore1

/-- Source: `if (!cstore.sessionUnsaved()) { exit(1); }` -/
def sessionUnsaved (api : Cstore σ) (cstore : σ) (_args : List String) :
    Option (OpResult σ) :=
  if !api.sessionUnsaved cstore then exited "" 1 cstore else returned "" cstore

/-- Source: `if (!cstore.sessionChanged()) { exit(1); }` -/
def sessionChanged (api : Cstore σ) (cstore : σ) (_args : List String) :
    Option (OpResult σ) :=
  if !api.sessionChanged cstore then exited "" 1 cstore else returned "" cstore

/-- Source: `if (!cstore.teardownSession()) { exit(1); }` -/
def teardownSession (api : Cstore σ) (cstore : σ) (_args : List String) :
    Option (OpResult σ) :=
  let (ok, cstore1) := api.teardownSession cstore
  if !ok then exited "" 1 cstore1 else returned "" cstore1

/-- Source: `if (!cstore.setupSession()) { exit(1); }` -/
def setupSession (api : Cstore σ) (cstore : σ) (_args : List String) :
    Option (OpResult σ) :=
  let (ok, cstore1) := api.setupSession cstore
  if !ok then exited "" 1 cstore1 else returned "" cstore1

/-- Source: `if (!cstore.inSession()) { exit(1); }` -/
def inSession (api : Cstore σ) (cstore : σ) (_args : List String) :
    Option (OpResult σ) :=
  if !api.inSession cstore then exited "" 1 cstore else returned "" cstore

/-- Source: `exit(cstore.cfgPathExists(args, false) ? 0 : 1);` -/
def «exists» (api : Cstore σ) (cstore : σ) (args : List String) :
    Option (OpResult σ) :=
  exited "" (if api.cfgPathExists cstore args false then 0 else 1) cstore

/-- Source: `exit(cstore.cfgPathExists(args, true) ? 0 : 1);` -/
def existsActive (api : Cstore σ) (cstore : σ) (args : List String) :
    Option (OpResult σ) :=
  exited "" (if api.cfgPathExists cstore args true then 0 else 1) cstore

/-- Source: `exit(cstore.cfgPathEffective(args) ? 0 : 1);` -/
def existsEffective (api : Cstore σ) (cstore : σ) (args : List String) :
    Option (OpResult σ) :=
  exited "" (if api.cfgPathEffective cstore args then 0 else 1) cstore

/-- Outputs a string representing multiple nodes, to be evaluated into an array:
`cstore.cfgPathGetChildNodes(args, cnodes, false); print_vec(cnodes, " ", "'");` -/
def listNodes (api : Cstore σ) (cstore : σ) (args : List String) :
    Option (OpResult σ) :=
  let cnodes := api.cfgPathGetChildNodes cstore args false
  returned (print_vec cnodes " " "'") cstore

/-- As `listNodes`, with `cfgPathGetChildNodes(args, cnodes, true)`. -/
def listActiveNodes (api : Cstore σ) (cstore : σ) (args : List String) :
    Option (OpResult σ) :=
  let cnodes := api.cfgPathGetChildNodes cstore args true
  returned (print_vec cnodes " " "'") cstore

/-- As `listNodes`, with `cfgPathGetEffectiveChildNodes(args, cnodes)`. -/
def listEffectiveNodes (api : Cstore σ) (cstore : σ) (args : List String) :
    Option (OpResult σ) :=
  let cnodes := api.cfgPathGetEffectiveChildNodes cstore args
  returned (print_vec cnodes " " "'") cstore

/-- Outputs a string: `exit(1)` when `cstore.cfgPathGetValue(args, val, false)`
fails, else `printf("%s", val.c_str())`. -/
def returnValue (api : Cstore σ) (cstore : σ) (args : List String) :
    Option (OpResult σ) :=
  let (ok, val) := api.cfgPathGetValue cstore args false
  if !ok then exited "" 1 cstore else returned val cstore

/-- As `returnValue`, with `cfgPathGetValue(args, val, true)`. -/
def returnActiveValue (api : Cstore σ) (cstore : σ) (args : List String) :
    Option (OpResult σ) :=
  let (ok, val) := api.cfgPathGetValue cstore args true
  if !ok then exited "" 1 cstore else returned val cstore

/-- As `returnValue`, with `cfgPathGetEffectiveValue(args, val)`. -/
def returnEffectiveValue (api : Cstore σ) (cstore : σ) (args : List String) :
    Option (OpResult σ) :=
  let (ok, val) := api.cfgPathGetEffectiveValue cstore args
  if !ok then exited "" 1 cstore else returned val cstore

/-- Outputs a string representing multiple values, to be evaluated into an array:
`exit(1)` when `cstore.cfgPathGetValues(args, vvec, false)` fails, else
`print_vec(vvec, " ", "'")`. -/
def returnValues (api : Cstore σ) (cstore : σ) (args : List String) :
    Option (OpResult σ) :=
  let (ok, vvec) := api.cfgPathGetValues cstore args false
  if !ok then exited "" 1 cstore else returned (print_vec vvec " " "'") cstore

/-- As `returnValues`, with `cfgPathGetValues(args, vvec, true)`. -/
def returnActiveValues (api : Cstore σ) (cstore : σ) (args : List String) :
    Option (OpResult σ) :=
  let (ok, vvec) := api.cfgPathGetValues cstore args true
  if !ok then exited "" 1 cstore else returned (print_vec vvec " " "'") cstore

/-- As `returnValues`, with `cfgPathGetEffectiveValues(args, vvec)`. -/
def returnEffectiveValues (api : Cstore σ) (cstore : σ) (args : List String) :
    Option (OpResult σ) :=
  let (ok, vvec) := api.cfgPathGetEffectiveValues cstore args
  if !ok then exited "" 1 cstore else returned (print_vec vvec " " "'") cstore

/-- Source: `exit(cstore.validateTmplPath(args, false) ? 0 : 1);` -/
def validateTmplPath (api : Cstore σ) (cstore : σ) (args : List String) :
    Option (OpResult σ) :=
  exited "" (if api.validateTmplPath cstore args false then 0 else 1) cstore

/-- Source: `exit(cstore.validateTmplPath(args, true) ? 0 : 1);` -/
def validateTmplValPath (api : Cstore σ) (cstore : σ) (args : List String) :
    Option (OpResult σ) :=
  exited "" (if api.validateTmplPath cstore args true then 0 else 1) cstore

/-- A root built in `showCfg`: the node the constructor gave, and the
arguments `path_comps`, `active`, `recursive` the constructor was called
with. -/
structure Root where
  node : CfgNode
  path_comps : List String
  active : Bool
  recursive : Bool

/-- The declaration `cnode::CfgNode root(cstore, path_comps, active, recursive);`:
the root built, and `path_comps` after the constructor. -/
def Root.construct (lib : CnodeLib σ) (cstore : σ) (path_comps : List String)
    (active recursive : Bool) : Root × List String :=
  let (node, path_comps1) := lib.CfgNode_new cstore path_comps active recursive
  ({ node := node, path_comps := path_comps, active := active,
     recursive := recursive }, path_comps1)

/-- A call of one of the two renderers, with its arguments in call order. -/
inductive Render where
  | show_cfg (cfg : Root) (show_def hide_secret : Int)
  | show_cfg_diff (cfg1 cfg2 : Root) (show_def hide_secret : Int)

/-- The text the renderer call writes to standard output. -/
def Render.output (lib : CnodeLib σ) : Render → String
  | .show_cfg cfg d h => lib.show_cfg cfg.node d h
  | .show_cfg_diff cfg1 cfg2 d h => lib.show_cfg_diff cfg1.node cfg2.node d h

/-- The body of `showCfg` up to its renderer call: which renderer it calls and
with which arguments.  `aroot` is always constructed; `wroot` only in the
`else` branch, from `nargs` as the construction of `aroot` left it. -/
def showCfgRender (api : Cstore σ) (lib : CnodeLib σ) (opts : Options)
    (cstore : σ) (args : List String) : Render :=
  let nargs := args
  let active_only := (!api.inSession cstore || opts.op_show_active_only != 0)
  let working_only := (api.inSession cstore && opts.op_show_working_only != 0)
  let (aroot, nargs1) := Root.construct lib cstore nargs true true
  if active_only then
    .show_cfg aroot opts.op_show_show_defaults opts.op_show_hide_secrets
  else
    let (wroot, _nargs2) := Root.construct lib cstore nargs1 false true
    if working_only then
      .show_cfg wroot opts.op_show_show_defaults opts.op_show_hide_secrets
    else
      .show_cfg_diff aroot wroot opts.op_show_show_defaults
        opts.op_show_hide_secrets

/-- The op function `showCfg`: it performs the renderer call of `showCfgRender`
and returns. -/
def showCfg (api : Cstore σ) (lib : CnodeLib σ) (opts : Options)
    (cstore : σ) (args : List String) : Option (OpResult σ) :=
  returned ((showCfgRender api lib opts cstore args).output lib) cstore

/-- Source: `if (!cstore.loadFile(args[0].c_str())) { exit(1); }` -/
def loadFile (api : Cstore σ) (cstore : σ) (args : List String) :
    Option (OpResult σ) :=
  match args[0]? with
  | none => none
  | some file =>
      let (ok, cstore1) := api.loadFile cstore file
      if !ok then exited "" 1 cstore1 else returned "" cstore1

/-! ## The table `ops` and `main` -/

/-- The macro `OP(name, exact, exact_err, min, min_err, use_edit)`, which
expands to `{ #name, exact, exact_err, min, min_err, use_edit, &name }`; the
string `#name` and the function `&name` are passed side by side. -/
def OP (name : String) (func : OpFuncT σ) (exact : Int) (exact_err : Option String)
    (min : Int) (min_err : Option String) (use_edit : Bool) : OpT σ :=
  { op_name := some name, op_exact_args := exact, op_exact_error := exact_err,
    op_min_args := min, op_min_error := min_err, op_use_edit := use_edit,
    op_func := some func }

/-- The array `ops`, ending with the entry whose `op_name` is `NULL`. -/
def ops (api : Cstore σ) (lib : CnodeLib σ) (opts : Options) : List (OpT σ) :=
  [ OP "getSessionEnv" (getSessionEnv api) 1 (some "Must specify session ID") (-1) none true,
    OP "getEditEnv" (getEditEnv api) (-1) none 1 (some "Must specify config path") true,
    OP "getEditUpEnv" (getEditUpEnv api) 0 (some "No argument expected") (-1) none true,
    OP "getEditResetEnv" (getEditResetEnv api) 0 (some "No argument expected") (-1) none true,
    OP "editLevelAtRoot" (editLevelAtRoot api) 0 (some "No argument expected") (-1) none true,
    OP "getCompletionEnv" (getCompletionEnv api) (-1) none
      2 (some "Must specify command and at least one component") true,
    OP "getEditLevelStr" (getEditLevelStr api) 0 (some "No argument expected") (-1) none true,

    OP "markSessionUnsaved" (markSessionUnsaved api) 0 (some "No argument expected") (-1) none false,
    OP "unmarkSessionUnsaved" (unmarkSessionUnsaved api) 0 (some "No argument expected") (-1) none false,
    OP "sessionUnsaved" (sessionUnsaved api) 0 (some "No argument expected") (-1) none false,
    OP "sessionChanged" (sessionChanged api) 0 (some "No argument expected") (-1) none false,

    OP "teardownSession" (teardownSession api) 0 (some "No argument expected") (-1) none false,
    OP "setupSession" (setupSession api) 0 (some "No argument expected") (-1) none false,
    OP "inSession" (inSession api) 0 (some "No argument expected") (-1) none false,

    OP "exists" («exists» api) (-1) none 1 (some "Must specify config path") false,
    OP "existsActive" (existsActive api) (-1) none 1 (some "Must specify config path") false,
    OP "existsEffective" (existsEffective api) (-1) none 1 (some "Must specify config path") false,

    OP "listNodes" (listNodes api) (-1) none (-1) none false,
    OP "listActiveNodes" (listActiveNodes api) (-1) none (-1) none false,
    OP "listEffectiveNodes" (listEffectiveNodes api) (-1) none 1 (some "Must specify config path") false,

    OP "returnValue" (returnValue api) (-1) none 1 (some "Must specify config path") false,
    OP "returnActiveValue" (returnActiveValue api) (-1) none 1 (some "Must specify config path") false,
    OP "returnEffectiveValue" (returnEffectiveValue api) (-1) none 1 (some "Must specify config path") false,

    OP "returnValues" (returnValues api) (-1) none 1 (some "Must specify config path") false,
    OP "returnActiveValues" (returnActiveValues api) (-1) none 1 (some "Must specify config path") false,
    OP "returnEffectiveValues" (returnEffectiveValues api) (-1) none 1 (some "Must specify config path") false,

    OP "validateTmplPath" (validateTmplPath api) (-1) none 1 (some "Must specify config path") false,
    OP "validateTmplValPath" (validateTmplValPath api) (-1) none 1 (some "Must specify config path") false,

    OP "showCfg" (showCfg api lib opts) (-1) none (-1) none true,
    OP "loadFile" (loadFile api) 1 (some "Must specify config file") (-1) none false,

    { op_name := none, op_exact_args := -1, op_exact_error := none,
      op_min_args := -1, op_min_error := none, op_use_edit := false,
      op_func := none } ]

/-- How the process ended: what it wrote to standard output and to standard
error, its exit status, and the calls `OP_func(*cstore, args)` it made, each as
the index `op_idx` into `ops` and the argument vector passed. -/
structure ProcResult where
  stdout : String
  stderr : String
  status : Nat
  invoked : List (Int × List String)
  deriving DecidableEq, Repr

/-- The exits `fprintf(stderr, msg); exit(1);` of `main`, all of them before any
op function is called. -/
def die (msg : String) : ProcResult :=
  { stdout := "", stderr := msg, status := 1, invoked := [] }

/-- The search loop of `main`, at index `i` with `table` the entries from `i`:
`while (ops[i].op_name) { if (strcmp(oname, ops[i].op_name) == 0) { op_idx = i; break; } ++i; }`.
The result is the value of `op_idx` after the loop (initially `-1`), or `none`
if the loop runs off the array. -/
def lookupOp (oname : String) : List (OpT σ) → Nat → Option Int
  | [], _ => none
  | e :: table, i =>
      match e.op_name with
      | none => some (-1)
      | some name => if oname = name then some (i : Int) else lookupOp oname table (i + 1)

/-- The loop `for (int i = 0; i < nargs; i++) args.push_back(nargv[i]);`,
started with `args` empty. -/
def collectArgs (nargv : List String) : List String :=
  nargv.foldl (fun args a => args ++ [a]) []

/-- The exit status of the process once the op function has run: the status the
function passed to `exit`, or the `0` of `main`'s final `exit(0)` when the
function returned. -/
def processStatus (r : OpResult σ) : Nat :=
  r.exit_status.getD 0

/-- The end of `main` from `OP_func(*cstore, args)` on: the one call of the op
function, `delete cstore`, `exit(0)`. -/
def mainTail (op_idx : Int) (args : List String) (r : OpResult σ) : ProcResult :=
  { stdout := r.stdout, stderr := "", status := processStatus r,
    invoked := [(op_idx, args)] }

/-- The part of `main` after the search loop has set `op_idx` to the index of
the entry `e`: the two arity checks, the copy of the arguments, the creation of
the store and the call of `OP_func`. -/
def dispatch (api : Cstore σ) (op_idx : Int) (e : OpT σ) (nargv : List String) :
    Option ProcResult :=
  let nargs : Int := nargv.length
  if e.op_exact_args ≥ 0 ∧ nargs ≠ e.op_exact_args then
    e.op_exact_error.map (fun msg => die (msg ++ "\n"))
  else if e.op_min_args ≥ 0 ∧ nargs < e.op_min_args then
    e.op_min_error.map (fun msg => die (msg ++ "\n"))
  else
    let args := collectArgs nargv
    let cstore := api.createCstore e.op_use_edit
    match e.op_func with
    | none => none
    | some func => (func cstore args).map (mainTail op_idx args)

/-- The function `main`, after the `getopt_long` loop has consumed the options (setting the
globals `opts`): `operands` is `argv[optind], ..., argv[argc - 1]`, so
`nargs = argc - optind - 1` is negative exactly when `operands` is empty.
The result is `none` where the C++ behaviour is undefined (a `NULL` string
printed, a `NULL` function called, an index out of range). -/
def main (api : Cstore σ) (lib : CnodeLib σ) (opts : Options)
    (operands : List String) : Option ProcResult :=
  match operands with
  | [] => some (die "Must specify operation\n")
  | oname :: nargv =>
      match lookupOp oname (ops api lib opts) 0 with
      | none => none
      | some op_idx =>
          if op_idx = -1 then some (die "Invalid operation\n")
          else
            match (ops api lib opts)[op_idx.toNat]? with
            | none => none
            | some e => dispatch api op_idx e nargv

/-- The op made the process end as a boolean function does for the answer `b`:
it wrote nothing to standard output, and the exit status is `0` exactly when
`b` is true and non-zero exactly when `b` is false. -/
def PassesThrough (res : Option (OpResult σ)) (b : Bool) : Prop :=
  ∃ r, res = some r ∧ r.stdout = "" ∧
    (processStatus r = 0 ↔ b = true) ∧ (processStatus r ≠ 0 ↔ b = false)

end ops

/-- What `main` relies on in an entry of `ops` that has a name: an arity bound
that is set comes with its error text, the two bounds are not both set, and the
op function is there and does not index its arguments out of range when they
pass the arity checks. -/
def EntryWellFormed {σ : Type} (e : OpT σ) : Prop :=
  (e.op_exact_args ≥ 0 → ∃ msg, e.op_exact_error = some msg) ∧
  (e.op_min_args ≥ 0 → e.op_exact_args < 0 ∧ ∃ msg, e.op_min_error = some msg) ∧
  (∃ func, e.op_func = some func ∧
    ∀ (cstore : σ) (nargv : List String),
      ¬ (e.op_exact_args ≥ 0 ∧ (nargv.length : Int) ≠ e.op_exact_args) →
      ¬ (e.op_min_args ≥ 0 ∧ (nargv.length : Int) < e.op_min_args) →
      ∃ r, func cstore nargv = some r)

/-! ## Reading the output back in the shell -/

/-- The single quote character. -/
def squote : Char := Char.ofNat 39

/-- Blanks that separate words: space, tab, newline. -/
def isBlank (c : Char) : Bool :=
  c = ' ' || c = Char.ofNat 9 || c = Char.ofNat 10

/-- Word splitting by the shell's single-quote rules, as
`eval "nodes=($values)"` applies them to the text between the parentheses:
a single quote opens a quoted stretch that runs to the next single quote, every
character inside it is literal (a single quote cannot occur inside), quoted and
unquoted stretches that touch belong to one word, and unquoted blanks separate
words.  `inq` says whether a quote is open, `cur` is the word being read
(`none` between words), `acc` the words read so far.  An unclosed quote gives
`none`. -/
def shSplitAux : List Char → Bool → Option (List Char) → List String →
    Option (List String)
  | [], true, _, _ => none
  | [], false, none, acc => some acc
  | [], false, some w, acc => some (acc ++ [String.mk w])
  | c :: cs, true, cur, acc =>
      if c = squote then shSplitAux cs false cur acc
      else shSplitAux cs true (some (cur.getD [] ++ [c])) acc
  | c :: cs, false, cur, acc =>
      if c = squote then shSplitAux cs true (some (cur.getD [])) acc
      else if isBlank c then
        match cur with
        | none => shSplitAux cs false none acc
        | some w => shSplitAux cs false none (acc ++ [String.mk w])
      else shSplitAux cs false (some (cur.getD [] ++ [c])) acc

/-- The array that `eval "nodes=($values)"` assigns when `values` is `s`. -/
def shSplit (s : String) : Option (List String) :=
  shSplitAux s.data false none []

/-- No element contains a single quote. -/
def QuoteFree (vec : List String) : Prop :=
  ∀ v ∈ vec, squote ∉ v.data

instance (vec : List String) : Decidable (QuoteFree vec) := by
  unfold QuoteFree
  infer_instance

/-- The array the caller gets from `eval "values=($out)"`, `out` being what the
op function wrote to standard output. -/
def evalOutput {σ : Type} (res : Option (OpResult σ)) : Option (List String) :=
  res.bind (fun r => shSplit r.stdout)

/-- The outcome of a value query whose store fetch answered `ok`: when the
fetch failed the op wrote nothing (so that the shell reads an empty array from
its output) and the process exits with status 1; when it succeeded the op wrote
`text` and the process exits with status 0. -/
def ValueQueryOutcome {σ : Type} (res : Option (OpResult σ)) (ok : Bool)
    (text : String) : Prop :=
  ∃ r, res = some r ∧
    (ok = false → r.stdout = "" ∧ processStatus r = 1 ∧ shSplit r.stdout = some []) ∧
    (ok = true → r.stdout = text ∧ processStatus r = 0)

/-! ## Which view the renderer call of `showCfg` shows -/

/-- The call renders the active tree alone. -/
def Render.activeAlone : Render → Prop
  | .show_cfg cfg _ _ => cfg.active = true
  | .show_cfg_diff _ _ _ _ => False

/-- The call renders the working tree alone. -/
def Render.workingAlone : Render → Prop
  | .show_cfg cfg _ _ => cfg.active = false
  | .show_cfg_diff _ _ _ _ => False

/-- The call renders the diff of the active tree against the working tree. -/
def Render.activeWorkingDiff : Render → Prop
  | .show_cfg _ _ _ => False
  | .show_cfg_diff cfg1 cfg2 _ _ => cfg1.active = true ∧ cfg2.active = false

/-! ## A small store to run the program on -/

/-- A store whose state is whether a configuration session exists.  The node
`interfaces ethernet` has the children `nodes`; `system host-name` is the
scalar `vyatta`; `system ntp-server` has the values `1.2.3.4` and `5.6.7.8`;
every other fetch fails. -/
def sampleStore (nodes : List String) : Cstore Bool where
  createCstore := fun _ => true
  createCstoreSession := fun session_id => (true, "declare -x SESSION=" ++ session_id ++ ";")
  getEditEnv := fun _ path => (true, "declare -x LEVEL=" ++ "/".intercalate path ++ ";")
  getEditUpEnv := fun _ => (false, "")
  getEditResetEnv := fun _ => (true, "declare -x LEVEL=/;")
  editLevelAtRoot := fun _ => true
  getCompletionEnv := fun _ _ => (false, "")
  getEditLevel := fun _ => []
  markSessionUnsaved := fun s => (s, s)
  unmarkSessionUnsaved := fun s => (s, s)
  sessionUnsaved := fun _ => false
  sessionChanged := fun s => s
  teardownSession := fun s => (s, false)
  setupSession := fun s => (!s, true)
  inSession := fun s => s
  cfgPathExists := fun _ path _ => decide (path = ["system", "ntp-server"])
  cfgPathEffective := fun _ path => decide (path = ["system", "ntp-server"])
  cfgPathGetChildNodes := fun _ path _ =>
    if path = ["interfaces", "ethernet"] then nodes else []
  cfgPathGetEffectiveChildNodes := fun _ path =>
    if path = ["interfaces", "ethernet"] then nodes else []
  cfgPathGetValue := fun _ path _ =>
    if path = ["system", "host-name"] then (true, "vyatta") else (false, "")
  cfgPathGetEffectiveValue := fun _ path =>
    if path = ["system", "host-name"] then (true, "vyatta") else (false, "")
  cfgPathGetValues := fun _ path _ =>
    if path = ["system", "ntp-server"] then (true, ["1.2.3.4", "5.6.7.8"]) else (false, [])
  cfgPathGetEffectiveValues := fun _ path =>
    if path = ["system", "ntp-server"] then (true, ["1.2.3.4", "5.6.7.8"]) else (false, [])
  validateTmplPath := fun _ path _ => decide (path.length ≤ 2)
  loadFile := fun s _ => (s, s)

/-- A `cnode` library for `sampleStore`: the constructor builds a scalar leaf
named after the view and leaves `path_comps` as it is; the renderers write one
line per tree. -/
def sampleLib : CnodeLib Bool where
  CfgNode_new := fun _ path_comps active _ =>
    (CfgNode.sampleLeaf (if active then "active" else "working")
      (" ".intercalate path_comps), path_comps)
  show_cfg := fun cfg _ _ => cfg.getName ++ " " ++ cfg.getValue ++ ";\n"
  show_cfg_diff := fun cfg1 cfg2 _ _ =>
    "-" ++ cfg1.getName ++ " " ++ cfg1.getValue ++ ";\n" ++
    "+" ++ cfg2.getName ++ " " ++ cfg2.getValue ++ ";\n"

/-- The option `--show-working-only` given on the command line. -/
def workingOnly : Options :=
  { op_show_active_only := 0, op_show_show_defaults := 0,
    op_show_hide_secrets := 0, op_show_working_only := 1 }

/-- No option given on the command line. -/
def noOptions : Options :=
  { op_show_active_only := 0, op_show_show_defaults := 0,
    op_show_hide_secrets := 0, op_show_working_only := 0 }

end cli_shell_api

/-! # Properties of `cnode::CfgNode` -/

namespace cnode.CfgNode

theorem getChildNodes_insert (n : CfgNode) (call : Insertion) :
    (n.insert call).getChildNodes = n.getChildNodes ++ insertedChildren [call] := by
  cases call <;>
    simp [insert, addChildNode, addMultiValue, getChildNodes, insertedChildren]

theorem getValues_insert (n : CfgNode) (call : Insertion) :
    (n.insert call).getValues = n.getValues ++ insertedValues [call] := by
  cases call <;>
    simp [insert, addChildNode, addMultiValue, getValues, insertedValues]

theorem insertedChildren_cons (call : Insertion) (calls : List Insertion) :
    insertedChildren (call :: calls) = insertedChildren [call] ++ insertedChildren calls := by
  cases call <;> simp [insertedChildren]

theorem insertedValues_cons (call : Insertion) (calls : List Insertion) :
    insertedValues (call :: calls) = insertedValues [call] ++ insertedValues calls := by
  cases call <;> simp [insertedValues]

theorem getChildNodes_insertAll (calls : List Insertion) (n : CfgNode) :
    (n.insertAll calls).getChildNodes = n.getChildNodes ++ insertedChildren calls := by
  induction calls generalizing n with
  | nil => simp [insertAll, insertedChildren]
  | cons call calls ih =>
      have step : (n.insertAll (call :: calls)) = (n.insert call).insertAll calls := rfl
      rw [step, ih, getChildNodes_insert, insertedChildren_cons call calls,
        List.append_assoc]

theorem getValues_insertAll (calls : List Insertion) (n : CfgNode) :
    (n.insertAll calls).getValues = n.getValues ++ insertedValues calls := by
  induction calls generalizing n with
  | nil => simp [insertAll, insertedValues]
  | cons call calls ih =>
      have step : (n.insertAll (call :: calls)) = (n.insert call).insertAll calls := rfl
      rw [step, ih, getValues_insert, insertedValues_cons call calls,
        List.append_assoc]

/-- C5: the predicate "getChildNodes() is empty iff isEmpty() is true" is kept by
addChildNode, addMultiValue and setValue; after addChildNode the child list is
non-empty and isEmpty() is false. -/
theorem children_empty_inv_preserved (n c : CfgNode) (v : String)
    (h : ChildrenEmptyInv n) :
    ChildrenEmptyInv (n.addChildNode c) ∧
    ChildrenEmptyInv (n.addMultiValue v) ∧
    ChildrenEmptyInv (n.setValue v) ∧
    (n.addChildNode c).getChildNodes ≠ [] ∧
    (n.addChildNode c).isEmpty = false := by
  refine ⟨?_, ?_, ?_, ?_, ?_⟩
  · simp [ChildrenEmptyInv, addChildNode, getChildNodes, isEmpty]
  · simpa [ChildrenEmptyInv, addMultiValue, getChildNodes, isEmpty] using h
  · simpa [ChildrenEmptyInv, setValue, getChildNodes, isEmpty] using h
  · simp [addChildNode, getChildNodes]
  · simp [addChildNode, isEmpty]

/-- C5 at a childless scalar leaf, which satisfies the predicate. -/
theorem children_empty_inv_preserved_witness :
    ChildrenEmptyInv (sampleLeaf "mtu" "1500") ∧
    (ChildrenEmptyInv ((sampleLeaf "mtu" "1500").addChildNode (sampleLeaf "x" "y")) ∧
     ChildrenEmptyInv ((sampleLeaf "mtu" "1500").addMultiValue "9000") ∧
     ChildrenEmptyInv ((sampleLeaf "mtu" "1500").setValue "9000") ∧
     ((sampleLeaf "mtu" "1500").addChildNode (sampleLeaf "x" "y")).getChildNodes ≠ [] ∧
     ((sampleLeaf "mtu" "1500").addChildNode (sampleLeaf "x" "y")).isEmpty = false) :=
  ⟨by simp [ChildrenEmptyInv, sampleLeaf, getChildNodes, isEmpty],
   children_empty_inv_preserved (sampleLeaf "mtu" "1500") (sampleLeaf "x" "y") "9000"
     (by simp [ChildrenEmptyInv, sampleLeaf, getChildNodes, isEmpty])⟩

/-- C6: addChildNode(c) turns the child list cs into cs followed by c, and
addMultiValue(v) turns the value list vs into vs followed by v; after any
sequence of such calls the child list is the old one followed by the inserted
children in call order, likewise the value list, so on a node whose two lists
are empty each list is exactly the inserted elements in call order, duplicates
included. -/
theorem insertion_order (n c : CfgNode) (v : String) (calls : List Insertion) :
    (n.addChildNode c).getChildNodes = n.getChildNodes ++ [c] ∧
    (n.addMultiValue v).getValues = n.getValues ++ [v] ∧
    (n.insertAll calls).getChildNodes = n.getChildNodes ++ insertedChildren calls ∧
    (n.insertAll calls).getValues = n.getValues ++ insertedValues calls ∧
    (insertAll { n with _values := [], _child_nodes := [] } calls).getChildNodes
      = insertedChildren calls ∧
    (insertAll { n with _values := [], _child_nodes := [] } calls).getValues
      = insertedValues calls := by
  refine ⟨rfl, rfl, getChildNodes_insertAll calls n, getValues_insertAll calls n, ?_, ?_⟩
  · rw [getChildNodes_insertAll]; simp [getChildNodes]
  · rw [getValues_insertAll]; simp [getValues]

/-- C7 as stated fails: a leaf without children, after addChildNode, is still a
leaf but has a child. -/
theorem leaf_addChildNode_has_child :
    ChildlessLeaf (sampleLeaf "mtu" "1500") ∧
    ((sampleLeaf "mtu" "1500").addChildNode (sampleLeaf "x" "y")).isLeaf = true ∧
    ((sampleLeaf "mtu" "1500").addChildNode (sampleLeaf "x" "y")).getChildNodes
      = [sampleLeaf "x" "y"] ∧
    ¬ ChildlessLeaf ((sampleLeaf "mtu" "1500").addChildNode (sampleLeaf "x" "y")) := by
  simp [ChildlessLeaf, sampleLeaf, addChildNode, isLeaf, getChildNodes]

/-- C7, amended: a leaf without children is still a leaf without children after
addMultiValue and after setValue; addChildNode does not look at isLeaf(): after
it isLeaf() is still true and the child list is the one child added. -/
theorem childless_leaf_mutators (n c : CfgNode) (v : String) (h : ChildlessLeaf n) :
    ChildlessLeaf (n.addMultiValue v) ∧
    ChildlessLeaf (n.setValue v) ∧
    (n.addChildNode c).isLeaf = true ∧
    (n.addChildNode c).getChildNodes = [c] := by
  obtain ⟨hl, hc⟩ := h
  simp only [isLeaf, getChildNodes] at hl hc
  simp [ChildlessLeaf, addMultiValue, setValue, addChildNode, isLeaf, getChildNodes,
    hl, hc]

/-- C7 amended, at a childless scalar leaf. -/
theorem childless_leaf_mutators_witness :
    ChildlessLeaf (sampleLeaf "mtu" "1500") ∧
    (ChildlessLeaf ((sampleLeaf "mtu" "1500").addMultiValue "9000") ∧
     ChildlessLeaf ((sampleLeaf "mtu" "1500").setValue "9000") ∧
     ((sampleLeaf "mtu" "1500").addChildNode (sampleLeaf "x" "y")).isLeaf = true ∧
     ((sampleLeaf "mtu" "1500").addChildNode (sampleLeaf "x" "y")).getChildNodes
       = [sampleLeaf "x" "y"]) :=
  ⟨by simp [ChildlessLeaf, sampleLeaf, isLeaf, getChildNodes],
   childless_leaf_mutators (sampleLeaf "mtu" "1500") (sampleLeaf "x" "y") "9000"
     (by simp [ChildlessLeaf, sampleLeaf, isLeaf, getChildNodes])⟩

end cnode.CfgNode

/-! # Properties of `cli_shell_api.cpp` -/

namespace cli_shell_api

open cnode

/-! ## `print_vec` and the shell -/

theorem squote_ne_space : squote ≠ ' ' := by decide

theorem isBlank_space : isBlank ' ' = true := by decide

/-- Inside an open quote the splitter takes a quote-free stretch literally, up
to the closing quote. -/
theorem shSplitAux_quoted (v : List Char) (hv : squote ∉ v) (rest cur : List Char)
    (acc : List String) :
    shSplitAux (v ++ squote :: rest) true (some cur) acc
      = shSplitAux rest false (some (cur ++ v)) acc := by
  induction v generalizing cur with
  | nil => simp [shSplitAux]
  | cons c v ih =>
      have hc : c ≠ squote := fun h => hv (by simp [h])
      have hv1 : squote ∉ v := fun h => hv (by simp [h])
      simp [shSplitAux, hc, ih hv1]

theorem print_vec_from_nil (sep quote : String) (i : Nat) :
    print_vec_from sep quote [] i = "" := rfl

theorem print_vec_from_first (v : String) (rest : List String) :
    (print_vec_from " " "'" (v :: rest) 0).data
      = squote :: (v.data ++ squote :: (print_vec_from " " "'" rest 1).data) := by
  simp [print_vec_from, String.data_append, squote]

theorem print_vec_from_next (v : String) (rest : List String) (i : Nat) :
    (print_vec_from " " "'" (v :: rest) (i + 1)).data
      = ' ' :: squote :: (v.data ++ squote :: (print_vec_from " " "'" rest (i + 2)).data) := by
  simp [print_vec_from, String.data_append, squote]

/-- After a closing quote, with the word `w` still open, the splitter reads the
remaining elements printed from a positive index back as they are. -/
theorem shSplitAux_print_vec_next (vec : List String) (hq : QuoteFree vec) (i : Nat)
    (w : List Char) (acc : List String) :
    shSplitAux (print_vec_from " " "'" vec (i + 1)).data false (some w) acc
      = some (acc ++ String.mk w :: vec) := by
  induction vec generalizing i w acc with
  | nil => simp [print_vec_from, shSplitAux]
  | cons v rest ih =>
      have hv : squote ∉ v.data := hq v (by simp)
      have hrest : QuoteFree rest := fun x hx => hq x (by simp [hx])
      rw [print_vec_from_next]
      simp only [shSplitAux, squote_ne_space.symm, if_false, isBlank_space, if_true,
        Option.getD_none]
      rw [shSplitAux_quoted v.data hv]
      rw [ih hrest]
      simp

/-- The splitter reads the text of `print_vec(vec, " ", "'")` back as `vec`
when no element contains a single quote. -/
theorem shSplit_print_vec (vec : List String) (hq : QuoteFree vec) :
    shSplit (print_vec vec " " "'") = some vec := by
  cases vec with
  | nil => rfl
  | cons v rest =>
      have hv : squote ∉ v.data := hq v (by simp)
      have hrest : QuoteFree rest := fun x hx => hq x (by simp [hx])
      unfold shSplit print_vec
      rw [print_vec_from_first]
      simp only [shSplitAux, if_true, Option.getD_none]
      rw [shSplitAux_quoted v.data hv]
      rw [shSplitAux_print_vec_next rest hrest 0]
      simp


/-- C4 at the failing input: the store returns the one child name
`eth0' 'eth1` (it contains single quotes) for `interfaces ethernet`; listNodes
prints `'eth0' 'eth1'` and the process exits 0; the shell splits that text into
the two words `eth0` and `eth1`, not into the list the store returned. -/
theorem listNodes_eval_splits_quoted_name :
    (sampleStore ["eth0' 'eth1"]).cfgPathGetChildNodes true ["interfaces", "ethernet"] false
      = ["eth0' 'eth1"] ∧
    (listNodes (sampleStore ["eth0' 'eth1"]) true ["interfaces", "ethernet"]).map (·.stdout)
      = some "'eth0' 'eth1'" ∧
    main (sampleStore ["eth0' 'eth1"]) sampleLib noOptions
        ["listNodes", "interfaces", "ethernet"]
      = some { stdout := "'eth0' 'eth1'", stderr := "", status := 0,
               invoked := [(17, ["interfaces", "ethernet"])] } ∧
    evalOutput (listNodes (sampleStore ["eth0' 'eth1"]) true ["interfaces", "ethernet"])
      = some ["eth0", "eth1"] ∧
    evalOutput (listNodes (sampleStore ["eth0' 'eth1"]) true ["interfaces", "ethernet"])
      ≠ some ["eth0' 'eth1"] := by
  decide

/-- Where the quoting of `print_vec` is enough: when no string of the list
returned by the store contains a single quote, the text printed by listNodes, listActiveNodes,
listEffectiveNodes, returnValues, returnActiveValues and returnEffectiveValues
(the last three when the fetch succeeds), split by the shell's single-quote
rules, is exactly the returned list, in the same order. -/
theorem eval_roundtrip_quote_free {σ : Type} (api : Cstore σ) (cstore : σ)
    (args : List String) :
    (QuoteFree (api.cfgPathGetChildNodes cstore args false) →
      evalOutput (listNodes api cstore args)
        = some (api.cfgPathGetChildNodes cstore args false)) ∧
    (QuoteFree (api.cfgPathGetChildNodes cstore args true) →
      evalOutput (listActiveNodes api cstore args)
        = some (api.cfgPathGetChildNodes cstore args true)) ∧
    (QuoteFree (api.cfgPathGetEffectiveChildNodes cstore args) →
      evalOutput (listEffectiveNodes api cstore args)
        = some (api.cfgPathGetEffectiveChildNodes cstore args)) ∧
    ((api.cfgPathGetValues cstore args false).1 = true →
      QuoteFree (api.cfgPathGetValues cstore args false).2 →
      evalOutput (returnValues api cstore args)
        = some (api.cfgPathGetValues cstore args false).2) ∧
    ((api.cfgPathGetValues cstore args true).1 = true →
      QuoteFree (api.cfgPathGetValues cstore args true).2 →
      evalOutput (returnActiveValues api cstore args)
        = some (api.cfgPathGetValues cstore args true).2) ∧
    ((api.cfgPathGetEffectiveValues cstore args).1 = true →
      QuoteFree (api.cfgPathGetEffectiveValues cstore args).2 →
      evalOutput (returnEffectiveValues api cstore args)
        = some (api.cfgPathGetEffectiveValues cstore args).2) := by
  refine ⟨?_, ?_, ?_, ?_, ?_, ?_⟩
  · intro hq
    simpa [evalOutput, listNodes, returned] using shSplit_print_vec _ hq
  · intro hq
    simpa [evalOutput, listActiveNodes, returned] using shSplit_print_vec _ hq
  · intro hq
    simpa [evalOutput, listEffectiveNodes, returned] using shSplit_print_vec _ hq
  · intro hok hq
    simpa [evalOutput, returnValues, returned, hok] using shSplit_print_vec _ hq
  · intro hok hq
    simpa [evalOutput, returnActiveValues, returned, hok] using shSplit_print_vec _ hq
  · intro hok hq
    simpa [evalOutput, returnEffectiveValues, returned, hok] using shSplit_print_vec _ hq

/-- The round trip on the sample store: the children `eth0`, `eth1` of
`interfaces ethernet` and the values of `system ntp-server` come back from the
shell as the store returned them. -/
theorem eval_roundtrip_quote_free_witness :
    evalOutput (listNodes (sampleStore ["eth0", "eth1"]) true ["interfaces", "ethernet"])
      = some ["eth0", "eth1"] ∧
    evalOutput (listActiveNodes (sampleStore ["eth0", "eth1"]) true ["interfaces", "ethernet"])
      = some ["eth0", "eth1"] ∧
    evalOutput (listEffectiveNodes (sampleStore ["eth0", "eth1"]) true ["interfaces", "ethernet"])
      = some ["eth0", "eth1"] ∧
    evalOutput (returnValues (sampleStore []) true ["system", "ntp-server"])
      = some ["1.2.3.4", "5.6.7.8"] ∧
    evalOutput (returnActiveValues (sampleStore []) true ["system", "ntp-server"])
      = some ["1.2.3.4", "5.6.7.8"] ∧
    evalOutput (returnEffectiveValues (sampleStore []) true ["system", "ntp-server"])
      = some ["1.2.3.4", "5.6.7.8"] :=
  ⟨(eval_roundtrip_quote_free (sampleStore ["eth0", "eth1"]) true
      ["interfaces", "ethernet"]).1 (by decide),
   (eval_roundtrip_quote_free (sampleStore ["eth0", "eth1"]) true
      ["interfaces", "ethernet"]).2.1 (by decide),
   (eval_roundtrip_quote_free (sampleStore ["eth0", "eth1"]) true
      ["interfaces", "ethernet"]).2.2.1 (by decide),
   (eval_roundtrip_quote_free (sampleStore []) true
      ["system", "ntp-server"]).2.2.2.1 (by decide) (by decide),
   (eval_roundtrip_quote_free (sampleStore []) true
      ["system", "ntp-server"]).2.2.2.2.1 (by decide) (by decide),
   (eval_roundtrip_quote_free (sampleStore []) true
      ["system", "ntp-server"]).2.2.2.2.2 (by decide) (by decide)⟩

/-! ## Exit status and output of the op functions -/

theorem passesThrough_exited {σ : Type} (cstore : σ) (b : Bool) :
    PassesThrough (exited "" (if b = true then 0 else 1) cstore) b := by
  cases b <;> simp [PassesThrough, exited, processStatus]

theorem passesThrough_query {σ : Type} (cstore : σ) (b : Bool) :
    PassesThrough (if (!b) = true then exited "" 1 cstore else returned "" cstore) b := by
  cases b <;> simp [PassesThrough, exited, returned, processStatus]

/-- C2: each op that wraps a boolean store call writes nothing to standard
output and makes the process exit with status 0 exactly when the store call
returned true, with a non-zero status exactly when it returned false. -/
theorem boolean_pass_through {σ : Type} (api : Cstore σ) (cstore : σ)
    (args : List String) :
    PassesThrough («exists» api cstore args) (api.cfgPathExists cstore args false) ∧
    PassesThrough (existsActive api cstore args) (api.cfgPathExists cstore args true) ∧
    PassesThrough (existsEffective api cstore args) (api.cfgPathEffective cstore args) ∧
    PassesThrough (editLevelAtRoot api cstore args) (api.editLevelAtRoot cstore) ∧
    PassesThrough (validateTmplPath api cstore args)
      (api.validateTmplPath cstore args false) ∧
    PassesThrough (validateTmplValPath api cstore args)
      (api.validateTmplPath cstore args true) ∧
    PassesThrough (inSession api cstore args) (api.inSession cstore) ∧
    PassesThrough (sessionUnsaved api cstore args) (api.sessionUnsaved cstore) ∧
    PassesThrough (sessionChanged api cstore args) (api.sessionChanged cstore) ∧
    PassesThrough (setupSession api cstore args) (api.setupSession cstore).1 ∧
    PassesThrough (teardownSession api cstore args) (api.teardownSession cstore).1 ∧
    PassesThrough (markSessionUnsaved api cstore args) (api.markSessionUnsaved cstore).1 ∧
    PassesThrough (unmarkSessionUnsaved api cstore args)
      (api.unmarkSessionUnsaved cstore).1 := by
  refine ⟨?_, ?_, ?_, ?_, ?_, ?_, ?_, ?_, ?_, ?_, ?_, ?_, ?_⟩
  · exact passesThrough_exited cstore _
  · exact passesThrough_exited cstore _
  · exact passesThrough_exited cstore _
  · exact passesThrough_exited cstore _
  · exact passesThrough_exited cstore _
  · exact passesThrough_exited cstore _
  · exact passesThrough_query cstore _
  · exact passesThrough_query cstore _
  · exact passesThrough_query cstore _
  · exact passesThrough_query (api.setupSession cstore).2 _
  · exact passesThrough_query (api.teardownSession cstore).2 _
  · exact passesThrough_query (api.markSessionUnsaved cstore).2 _
  · exact passesThrough_query (api.unmarkSessionUnsaved cstore).2 _

theorem valueQueryOutcome_fetch {σ : Type} (cstore : σ) (ok : Bool) (text : String) :
    ValueQueryOutcome (if (!ok) = true then exited "" 1 cstore else returned text cstore)
      ok text := by
  cases ok
  · exact ⟨_, rfl, fun _ => ⟨rfl, rfl, rfl⟩, fun h => by simp at h⟩
  · exact ⟨_, rfl, fun h => by simp at h, fun _ => ⟨rfl, rfl⟩⟩

/-- C3: each of returnValue, returnActiveValue, returnEffectiveValue,
returnValues, returnActiveValues and returnEffectiveValues, when its store
fetch fails, writes nothing to standard output (the shell reads an empty array
from it) and the process exits with status 1; when the fetch succeeds it writes
the fetched value, resp. the fetched values as print_vec quotes them, and the
process exits with status 0. -/
theorem value_query_outcome {σ : Type} (api : Cstore σ) (cstore : σ)
    (args : List String) :
    ValueQueryOutcome (returnValue api cstore args)
      (api.cfgPathGetValue cstore args false).1
      (api.cfgPathGetValue cstore args false).2 ∧
    ValueQueryOutcome (returnActiveValue api cstore args)
      (api.cfgPathGetValue cstore args true).1
      (api.cfgPathGetValue cstore args true).2 ∧
    ValueQueryOutcome (returnEffectiveValue api cstore args)
      (api.cfgPathGetEffectiveValue cstore args).1
      (api.cfgPathGetEffectiveValue cstore args).2 ∧
    ValueQueryOutcome (returnValues api cstore args)
      (api.cfgPathGetValues cstore args false).1
      (print_vec (api.cfgPathGetValues cstore args false).2 " " "'") ∧
    ValueQueryOutcome (returnActiveValues api cstore args)
      (api.cfgPathGetValues cstore args true).1
      (print_vec (api.cfgPathGetValues cstore args true).2 " " "'") ∧
    ValueQueryOutcome (returnEffectiveValues api cstore args)
      (api.cfgPathGetEffectiveValues cstore args).1
      (print_vec (api.cfgPathGetEffectiveValues cstore args).2 " " "'") :=
  ⟨valueQueryOutcome_fetch cstore _ _, valueQueryOutcome_fetch cstore _ _,
   valueQueryOutcome_fetch cstore _ _, valueQueryOutcome_fetch cstore _ _,
   valueQueryOutcome_fetch cstore _ _, valueQueryOutcome_fetch cstore _ _⟩

/-- C3 on the sample store: `returnValues system dns` fails silently with
status 1, and `returnValues system ntp-server` writes the two quoted values
and ends with status 0. -/
theorem value_query_outcome_witness :
    ValueQueryOutcome (returnValues (sampleStore []) true ["system", "dns"]) false "" ∧
    ValueQueryOutcome (returnValues (sampleStore []) true ["system", "ntp-server"]) true
      "'1.2.3.4' '5.6.7.8'" :=
  ⟨(value_query_outcome (sampleStore []) true ["system", "dns"]).2.2.2.1,
   (value_query_outcome (sampleStore []) true ["system", "ntp-server"]).2.2.2.1⟩

/-! ## `showCfg` -/

/-- The renderer call of `showCfg`, by cases on the session and the two view
options. -/
theorem showCfgRender_eq {σ : Type} (api : Cstore σ) (lib : CnodeLib σ) (opts : Options)
    (cstore : σ) (args : List String) :
    showCfgRender api lib opts cstore args =
      if api.inSession cstore = false ∨ opts.op_show_active_only ≠ 0 then
        .show_cfg (Root.construct lib cstore args true true).1
          opts.op_show_show_defaults opts.op_show_hide_secrets
      else if opts.op_show_working_only ≠ 0 then
        .show_cfg
          (Root.construct lib cstore (Root.construct lib cstore args true true).2
            false true).1
          opts.op_show_show_defaults opts.op_show_hide_secrets
      else
        .show_cfg_diff (Root.construct lib cstore args true true).1
          (Root.construct lib cstore (Root.construct lib cstore args true true).2
            false true).1
          opts.op_show_show_defaults opts.op_show_hide_secrets := by
  unfold showCfgRender
  cases hs : api.inSession cstore <;>
    by_cases ha : opts.op_show_active_only = 0 <;>
    by_cases hw : opts.op_show_working_only = 0 <;>
    simp [hs, ha, hw]

/-- C9: with s = inSession, a = show-active-only set and w = show-working-only
set, showCfg makes exactly one renderer call and writes exactly what that call
writes: show_cfg on the tree the constructor builds with active = true, iff
(not s) or a; show_cfg on the tree the constructor builds with active = false,
iff s and (not a) and w; show_cfg_diff on the two, iff s and (not a) and
(not w). -/
theorem showCfg_view_selection {σ : Type} (api : Cstore σ) (lib : CnodeLib σ)
    (opts : Options) (cstore : σ) (args : List String) :
    ((¬ api.inSession cstore = true ∨ opts.op_show_active_only ≠ 0) →
      showCfg api lib opts cstore args
        = returned (lib.show_cfg (lib.CfgNode_new cstore args true true).1
            opts.op_show_show_defaults opts.op_show_hide_secrets) cstore) ∧
    ((api.inSession cstore = true ∧ ¬ opts.op_show_active_only ≠ 0 ∧
        opts.op_show_working_only ≠ 0) →
      showCfg api lib opts cstore args
        = returned (lib.show_cfg
            (lib.CfgNode_new cstore (lib.CfgNode_new cstore args true true).2
              false true).1
            opts.op_show_show_defaults opts.op_show_hide_secrets) cstore) ∧
    ((api.inSession cstore = true ∧ ¬ opts.op_show_active_only ≠ 0 ∧
        ¬ opts.op_show_working_only ≠ 0) →
      showCfg api lib opts cstore args
        = returned (lib.show_cfg_diff (lib.CfgNode_new cstore args true true).1
            (lib.CfgNode_new cstore (lib.CfgNode_new cstore args true true).2
              false true).1
            opts.op_show_show_defaults opts.op_show_hide_secrets) cstore) ∧
    (showCfgRender api lib opts cstore args
        = .show_cfg
            { node := (lib.CfgNode_new cstore args true true).1, path_comps := args,
              active := true, recursive := true }
            opts.op_show_show_defaults opts.op_show_hide_secrets ↔
      (¬ api.inSession cstore = true ∨ opts.op_show_active_only ≠ 0)) ∧
    (showCfgRender api lib opts cstore args
        = .show_cfg
            { node := (lib.CfgNode_new cstore
                (lib.CfgNode_new cstore args true true).2 false true).1,
              path_comps := (lib.CfgNode_new cstore args true true).2,
              active := false, recursive := true }
            opts.op_show_show_defaults opts.op_show_hide_secrets ↔
      (api.inSession cstore = true ∧ ¬ opts.op_show_active_only ≠ 0 ∧
        opts.op_show_working_only ≠ 0)) ∧
    (showCfgRender api lib opts cstore args
        = .show_cfg_diff
            { node := (lib.CfgNode_new cstore args true true).1, path_comps := args,
              active := true, recursive := true }
            { node := (lib.CfgNode_new cstore
                (lib.CfgNode_new cstore args true true).2 false true).1,
              path_comps := (lib.CfgNode_new cstore args true true).2,
              active := false, recursive := true }
            opts.op_show_show_defaults opts.op_show_hide_secrets ↔
      (api.inSession cstore = true ∧ ¬ opts.op_show_active_only ≠ 0 ∧
        ¬ opts.op_show_working_only ≠ 0)) ∧
    ((showCfgRender api lib opts cstore args).activeAlone ↔
      (¬ api.inSession cstore = true ∨ opts.op_show_active_only ≠ 0)) ∧
    ((showCfgRender api lib opts cstore args).workingAlone ↔
      (api.inSession cstore = true ∧ ¬ opts.op_show_active_only ≠ 0 ∧
        opts.op_show_working_only ≠ 0)) ∧
    ((showCfgRender api lib opts cstore args).activeWorkingDiff ↔
      (api.inSession cstore = true ∧ ¬ opts.op_show_active_only ≠ 0 ∧
        ¬ opts.op_show_working_only ≠ 0)) := by
  refine ⟨?_, ?_, ?_, ?_, ?_, ?_, ?_, ?_, ?_⟩
  · intro hc
    have hc2 : api.inSession cstore = false ∨ opts.op_show_active_only ≠ 0 := by
      rcases hc with h | h
      · left; simpa using h
      · right; exact h
    simp only [showCfg, showCfgRender_eq, if_pos hc2, Render.output, Root.construct]
  · intro hc
    have hc1 : ¬ (api.inSession cstore = false ∨ opts.op_show_active_only ≠ 0) := by
      intro h
      rcases h with h | h
      · rw [hc.1] at h; cases h
      · exact hc.2.1 h
    simp only [showCfg, showCfgRender_eq, if_neg hc1, if_pos hc.2.2, Render.output,
      Root.construct]
  · intro hc
    have hc1 : ¬ (api.inSession cstore = false ∨ opts.op_show_active_only ≠ 0) := by
      intro h
      rcases h with h | h
      · rw [hc.1] at h; cases h
      · exact hc.2.1 h
    simp only [showCfg, showCfgRender_eq, if_neg hc1, if_neg hc.2.2, Render.output,
      Root.construct]
  all_goals
    rw [showCfgRender_eq]
    cases hs : api.inSession cstore <;>
    by_cases ha : opts.op_show_active_only = 0 <;>
    by_cases hw : opts.op_show_working_only = 0 <;>
    simp [hs, ha, hw, Render.activeAlone, Render.workingAlone,
      Render.activeWorkingDiff, Root.construct]

/-- C9 on the sample store with `showCfg system`: outside a session the active
tree alone is written; in a session with `--show-working-only` the working tree
alone; in a session without options the diff of the two. -/
theorem showCfg_view_selection_witness :
    showCfg (sampleStore []) sampleLib noOptions false ["system"]
      = returned "active system;\n" false ∧
    showCfg (sampleStore []) sampleLib workingOnly true ["system"]
      = returned "working system;\n" true ∧
    showCfg (sampleStore []) sampleLib noOptions true ["system"]
      = returned "-active system;\n+working system;\n" true :=
  ⟨(showCfg_view_selection (sampleStore []) sampleLib noOptions false ["system"]).1
     (by decide),
   (showCfg_view_selection (sampleStore []) sampleLib workingOnly true ["system"]).2.1
     (by decide),
   (showCfg_view_selection (sampleStore []) sampleLib noOptions true ["system"]).2.2.1
     (by decide)⟩

/-! ## `main`: the search loop and the arity checks -/

theorem collectArgs_eq (nargv : List String) : collectArgs nargv = nargv := by
  have h : ∀ (l args : List String),
      l.foldl (fun args a => args ++ [a]) args = args ++ l := by
    intro l
    induction l with
    | nil => intro args; simp
    | cons a l ih => intro args; simp [ih]
  simpa [collectArgs] using h nargv []

/-- The search loop stops at the first entry named `n`: when the entries before
the sentinel all have names, pairwise distinct, it stops at the entry named
`n`. -/
theorem lookupOp_found {σ : Type} (n : String) (rest : List (OpT σ)) :
    ∀ (body : List (OpT σ)) (i k : Nat) (e : OpT σ),
      (∀ e1 ∈ body, e1.op_name ≠ none) →
      (body.map (·.op_name)).Nodup →
      body[k]? = some e → e.op_name = some n →
      lookupOp n (body ++ rest) i = some ((i + k : Nat) : Int) := by
  intro body
  induction body with
  | nil => intro i k e _ _ hk; simp at hk
  | cons a body ih =>
      intro i k e hall hnd hk hn
      cases k with
      | zero =>
          simp at hk
          subst hk
          simp [lookupOp, hn]
      | succ k =>
          simp at hk
          have hmem : e ∈ body := List.getElem?_mem hk
          have hnd0 : a.op_name ∉ body.map (·.op_name) ∧ (body.map (·.op_name)).Nodup :=
            List.nodup_cons.mp hnd
          have ha : a.op_name ≠ some n := by
            intro h
            apply hnd0.1
            rw [h, ← hn]
            exact List.mem_map_of_mem _ hmem
          have hall2 : ∀ e1 ∈ body, e1.op_name ≠ none :=
            fun e1 h1 => hall e1 (by simp [h1])
          have hsome : a.op_name ≠ none := hall a (by simp)
          have hrec := ih (i + 1) k e hall2 hnd0.2 hk hn
          cases hna : a.op_name with
          | none => exact absurd hna hsome
          | some m =>
              have hmn : n ≠ m := fun h => ha (by rw [hna, h])
              have hstep : lookupOp n (a :: body ++ rest) i
                  = lookupOp n (body ++ rest) (i + 1) := by
                simp only [List.cons_append, lookupOp, hna, if_neg hmn]
                rfl
              rw [hstep, hrec]
              congr 2
              omega

/-- The search loop leaves `op_idx` at `-1` when no entry is named `n` and the
table has a sentinel. -/
theorem lookupOp_not_found {σ : Type} (n : String) :
    ∀ (table : List (OpT σ)) (i : Nat),
      (∀ e ∈ table, e.op_name ≠ some n) → (∃ e ∈ table, e.op_name = none) →
      lookupOp n table i = some (-1) := by
  intro table
  induction table with
  | nil => intro i _ h; simp at h
  | cons a table ih =>
      intro i hne hsent
      cases hna : a.op_name with
      | none => simp [lookupOp, hna]
      | some m =>
          have hmn : n ≠ m := fun h => hne a (by simp) (by rw [hna, h])
          have hsent2 : ∃ e ∈ table, e.op_name = none := by
            obtain ⟨e, he, hnone⟩ := hsent
            rcases List.mem_cons.mp he with rfl | he2
            · rw [hna] at hnone; cases hnone
            · exact ⟨e, he2, hnone⟩
          simp only [lookupOp, hna, if_neg hmn]
          exact ih (i + 1) (fun e he => hne e (by simp [he])) hsent2

/-- The `op_name` column of `ops`. -/
theorem ops_names {σ : Type} (api : Cstore σ) (lib : CnodeLib σ) (opts : Options) :
    (ops api lib opts).map (·.op_name) = [
      some "getSessionEnv", some "getEditEnv", some "getEditUpEnv", some "getEditResetEnv",
      some "editLevelAtRoot", some "getCompletionEnv", some "getEditLevelStr",
      some "markSessionUnsaved", some "unmarkSessionUnsaved", some "sessionUnsaved",
      some "sessionChanged", some "teardownSession", some "setupSession", some "inSession",
      some "exists", some "existsActive", some "existsEffective", some "listNodes",
      some "listActiveNodes", some "listEffectiveNodes", some "returnValue",
      some "returnActiveValue", some "returnEffectiveValue", some "returnValues",
      some "returnActiveValues", some "returnEffectiveValues", some "validateTmplPath",
      some "validateTmplValPath", some "showCfg", some "loadFile", none ] := rfl

theorem ops_body_named {σ : Type} (api : Cstore σ) (lib : CnodeLib σ) (opts : Options) :
    ∀ e ∈ (ops api lib opts).take 30, e.op_name ≠ none := by
  intro e he hnone
  have h1 : e.op_name ∈ ((ops api lib opts).take 30).map (·.op_name) :=
    List.mem_map_of_mem _ he
  rw [List.map_take, ops_names, hnone] at h1
  revert h1
  decide

theorem ops_body_nodup {σ : Type} (api : Cstore σ) (lib : CnodeLib σ) (opts : Options) :
    (((ops api lib opts).take 30).map (·.op_name)).Nodup := by
  rw [List.map_take, ops_names]
  decide

/-- The search loop of `main` finds each named entry of `ops` at its own
index. -/
theorem lookupOp_ops {σ : Type} (api : Cstore σ) (lib : CnodeLib σ) (opts : Options)
    (k : Nat) (e : OpT σ) (name : String)
    (he : (ops api lib opts)[k]? = some e) (hn : e.op_name = some name) :
    lookupOp name (ops api lib opts) 0 = some (k : Int) := by
  have hlt : k < 30 := by
    have h1 : ((ops api lib opts).map (·.op_name))[k]? = some (some name) := by
      rw [List.getElem?_map, he]; simp [hn]
    rw [ops_names] at h1
    have hlen : k < 31 := by
      obtain ⟨hk, _⟩ := List.getElem?_eq_some.mp h1
      simpa using hk
    by_contra hge
    have hk : k = 30 := by omega
    subst hk
    simp at h1
  have hbody : ((ops api lib opts).take 30)[k]? = some e := by
    rw [List.getElem?_take]; simp [hlt, he]
  have h := lookupOp_found name ((ops api lib opts).drop 30) ((ops api lib opts).take 30)
    0 k e (ops_body_named api lib opts) (ops_body_nodup api lib opts) hbody hn
  rw [List.take_append_drop] at h
  simpa using h

/-- Once the search loop has found the entry, `main` is the arity checks and
the call. -/
theorem main_eq_dispatch {σ : Type} (api : Cstore σ) (lib : CnodeLib σ) (opts : Options)
    (k : Nat) (e : OpT σ) (name : String) (nargv : List String)
    (he : (ops api lib opts)[k]? = some e) (hn : e.op_name = some name) :
    main api lib opts (name :: nargv) = dispatch api (k : Int) e nargv := by
  have hne : ((k : Int) = -1) = False := by
    apply eq_false; omega
  simp only [main, lookupOp_ops api lib opts k e name he hn, hne, if_false, Int.toNat_ofNat, he]

/-- The run of `main` on an operation name that no entry has. -/
theorem main_invalid_operation {σ : Type} (api : Cstore σ) (lib : CnodeLib σ)
    (opts : Options) (oname : String) (nargv : List String)
    (hno : ∀ e ∈ ops api lib opts, e.op_name ≠ some oname) :
    main api lib opts (oname :: nargv) = some (die "Invalid operation\n") := by
  have hsent : ∃ e ∈ ops api lib opts, e.op_name = none := by
    have h1 : (none : Option String) ∈ (ops api lib opts).map (·.op_name) := by
      rw [ops_names]; decide
    obtain ⟨e, he, h⟩ := List.mem_map.mp h1
    exact ⟨e, he, h⟩
  simp [main, lookupOp_not_found oname (ops api lib opts) 0 hno hsent]

/-- Every named entry of `ops` is well formed. -/
theorem ops_entries_well_formed {σ : Type} (api : Cstore σ) (lib : CnodeLib σ)
    (opts : Options) :
    ∀ e ∈ ops api lib opts, e.op_name ≠ none → EntryWellFormed e := by
  have hone : ∀ nargv : List String, (nargv.length : Int) = 1 → ∃ a, nargv[0]? = some a := by
    intro nargv h
    cases nargv with
    | nil => simp at h
    | cons a l => exact ⟨a, by simp⟩
  simp only [ops, List.forall_mem_cons]
  refine ⟨?_, ?_, ?_, ?_, ?_, ?_, ?_, ?_, ?_, ?_, ?_, ?_, ?_, ?_, ?_, ?_, ?_, ?_, ?_, ?_,
    ?_, ?_, ?_, ?_, ?_, ?_, ?_, ?_, ?_, ?_, ?_, ?_⟩
  case refine_1 =>
    intro _
    refine ⟨fun _ => ⟨_, rfl⟩, fun h => by simp [OP] at h, _, rfl, ?_⟩
    intro cstore nargv h1 _
    have hlen : (nargv.length : Int) = 1 := by
      by_contra hc
      exact h1 ⟨by simp [OP], hc⟩
    obtain ⟨a, ha⟩ := hone nargv hlen
    simp [getSessionEnv, ha, returned]
  case refine_30 =>
    intro _
    refine ⟨fun _ => ⟨_, rfl⟩, fun h => by simp [OP] at h, _, rfl, ?_⟩
    intro cstore nargv h1 _
    have hlen : (nargv.length : Int) = 1 := by
      by_contra hc
      exact h1 ⟨by simp [OP], hc⟩
    obtain ⟨a, ha⟩ := hone nargv hlen
    simp only [loadFile, ha]
    split <;> simp [exited, returned]
  case refine_31 => intro h; exact absurd rfl h
  case refine_32 => intro e he; simp at he
  all_goals
    intro _
    refine ⟨?_, ?_, _, rfl, ?_⟩
    · first
        | exact fun _ => ⟨_, rfl⟩
        | exact fun h => by simp [OP] at h
    · first
        | exact fun _ => ⟨by simp [OP], _, rfl⟩
        | exact fun h => by simp [OP] at h
    · intro cstore nargv _ _
      simp only [getEditEnv, getEditUpEnv, getEditResetEnv, editLevelAtRoot,
        getCompletionEnv, getEditLevelStr, markSessionUnsaved, unmarkSessionUnsaved,
        sessionUnsaved, sessionChanged, teardownSession, setupSession, inSession,
        «exists», existsActive, existsEffective, listNodes, listActiveNodes,
        listEffectiveNodes, returnValue, returnActiveValue, returnEffectiveValue,
        returnValues, returnActiveValues, returnEffectiveValues, validateTmplPath,
        validateTmplValPath, showCfg, exited, returned]
      first
        | exact ⟨_, rfl⟩
        | (split <;> exact ⟨_, rfl⟩)

/-- C1: for an entry of `ops` and an argument list of length n: if the entry
has op_exact_args = e >= 0 and n != e, main prints op_exact_error and exits
with status 1 without calling the op function; if it has op_min_args = m >= 0
and n < m, main prints op_min_error and exits with status 1 without calling the
op function; in every other case the op function of the entry is called exactly
once, with the arguments in the order given, and the process ends with the
status the function passed to exit, or with 0 when it returned. -/
theorem main_arity_validation {σ : Type} (api : Cstore σ) (lib : CnodeLib σ)
    (opts : Options) (k : Nat) (e : OpT σ) (name : String) (nargv : List String)
    (he : (ops api lib opts)[k]? = some e) (hn : e.op_name = some name) :
    (e.op_exact_args ≥ 0 ∧ (nargv.length : Int) ≠ e.op_exact_args →
      ∃ msg, e.op_exact_error = some msg ∧
        main api lib opts (name :: nargv)
          = some { stdout := "", stderr := msg ++ "\n", status := 1, invoked := [] }) ∧
    (e.op_min_args ≥ 0 ∧ (nargv.length : Int) < e.op_min_args →
      ∃ msg, e.op_min_error = some msg ∧
        main api lib opts (name :: nargv)
          = some { stdout := "", stderr := msg ++ "\n", status := 1, invoked := [] }) ∧
    (¬ (e.op_exact_args ≥ 0 ∧ (nargv.length : Int) ≠ e.op_exact_args) ∧
     ¬ (e.op_min_args ≥ 0 ∧ (nargv.length : Int) < e.op_min_args) →
      ∃ func r, e.op_func = some func ∧
        func (api.createCstore e.op_use_edit) nargv = some r ∧
        main api lib opts (name :: nargv)
          = some { stdout := r.stdout, stderr := "", status := r.exit_status.getD 0,
                   invoked := [((k : Int), nargv)] }) := by
  have hmain := main_eq_dispatch api lib opts k e name nargv he hn
  have hnamed : e.op_name ≠ none := by rw [hn]; simp
  obtain ⟨hexact, hmin, func, hfunc, htotal⟩ :=
    ops_entries_well_formed api lib opts e (List.getElem?_mem he) hnamed
  refine ⟨?_, ?_, ?_⟩
  · intro hviol
    obtain ⟨msg, hmsg⟩ := hexact hviol.1
    refine ⟨msg, hmsg, ?_⟩
    rw [hmain]
    simp only [dispatch, hviol, and_self, if_true, hmsg, Option.map_some', die, ne_eq,
      not_false_eq_true]
  · intro hviol
    obtain ⟨hno, msg, hmsg⟩ := hmin hviol.1
    refine ⟨msg, hmsg, ?_⟩
    have hnot : ¬ (e.op_exact_args ≥ 0 ∧ (nargv.length : Int) ≠ e.op_exact_args) :=
      fun h => absurd h.1 (by omega)
    rw [hmain]
    simp only [dispatch, if_neg hnot, if_pos hviol, hmsg, Option.map_some', die]
  · intro hok
    obtain ⟨r, hr⟩ := htotal (api.createCstore e.op_use_edit) nargv hok.1 hok.2
    refine ⟨func, r, hfunc, hr, ?_⟩
    rw [hmain]
    simp only [dispatch, if_neg hok.1, if_neg hok.2, collectArgs_eq, hfunc, hr,
      Option.map_some', mainTail, processStatus]

/-- C1 on the sample store: `inSession x` and `exists` end with the error text
of their entry and status 1, no op function called; `exists system ntp-server`
calls the op function of entry 14 once with the two arguments and ends with
its status 0. -/
theorem main_arity_validation_witness :
    main (sampleStore []) sampleLib noOptions ["inSession", "x"]
      = some { stdout := "", stderr := "No argument expected\n", status := 1,
               invoked := [] } ∧
    main (sampleStore []) sampleLib noOptions ["exists"]
      = some { stdout := "", stderr := "Must specify config path\n", status := 1,
               invoked := [] } ∧
    main (sampleStore []) sampleLib noOptions ["exists", "system", "ntp-server"]
      = some { stdout := "", stderr := "", status := 0,
               invoked := [(14, ["system", "ntp-server"])] } := by
  refine ⟨?_, ?_, ?_⟩
  · obtain ⟨msg, hmsg, hmain⟩ :=
      (main_arity_validation (sampleStore []) sampleLib noOptions 13 _ "inSession" ["x"]
        rfl rfl).1 (by decide)
    have hm : msg = "No argument expected" := (Option.some.inj hmsg).symm
    rw [hmain, hm]
    rfl
  · obtain ⟨msg, hmsg, hmain⟩ :=
      (main_arity_validation (sampleStore []) sampleLib noOptions 14 _ "exists" []
        rfl rfl).2.1 (by decide)
    have hm : msg = "Must specify config path" := (Option.some.inj hmsg).symm
    rw [hmain, hm]
    rfl
  · obtain ⟨func, r, hfunc, hr, hmain⟩ :=
      (main_arity_validation (sampleStore []) sampleLib noOptions 14 _ "exists"
        ["system", "ntp-server"] rfl rfl).2.2 (by decide)
    have hf : func = «exists» (sampleStore []) := (Option.some.inj hfunc).symm
    subst hf
    have hr2 : r = { stdout := "", exit_status := some 0, store := true } :=
      (Option.some.inj hr).symm
    rw [hmain, hr2]
    rfl

/-- C10: the op_name strings of `ops` are pairwise distinct and every entry
pairs a name with the function of that name; so for an operation name equal to
the op_name of an entry the search loop of main selects that entry and main
goes on with its arity checks and its function; for an operation name equal to
no op_name main prints "Invalid operation" and exits with status 1 without
calling an op function; without an operation name it prints
"Must specify operation" and exits with status 1. -/
theorem operation_lookup {σ : Type} (api : Cstore σ) (lib : CnodeLib σ) (opts : Options) :
    ((ops api lib opts).filterMap (·.op_name)).Nodup ∧
    (ops api lib opts).map (fun e => (e.op_name, e.op_func)) = [
        (some "getSessionEnv", some (getSessionEnv api)),
        (some "getEditEnv", some (getEditEnv api)),
        (some "getEditUpEnv", some (getEditUpEnv api)),
        (some "getEditResetEnv", some (getEditResetEnv api)),
        (some "editLevelAtRoot", some (editLevelAtRoot api)),
        (some "getCompletionEnv", some (getCompletionEnv api)),
        (some "getEditLevelStr", some (getEditLevelStr api)),
        (some "markSessionUnsaved", some (markSessionUnsaved api)),
        (some "unmarkSessionUnsaved", some (unmarkSessionUnsaved api)),
        (some "sessionUnsaved", some (sessionUnsaved api)),
        (some "sessionChanged", some (sessionChanged api)),
        (some "teardownSession", some (teardownSession api)),
        (some "setupSession", some (setupSession api)),
        (some "inSession", some (inSession api)),
        (some "exists", some («exists» api)),
        (some "existsActive", some (existsActive api)),
        (some "existsEffective", some (existsEffective api)),
        (some "listNodes", some (listNodes api)),
        (some "listActiveNodes", some (listActiveNodes api)),
        (some "listEffectiveNodes", some (listEffectiveNodes api)),
        (some "returnValue", some (returnValue api)),
        (some "returnActiveValue", some (returnActiveValue api)),
        (some "returnEffectiveValue", some (returnEffectiveValue api)),
        (some "returnValues", some (returnValues api)),
        (some "returnActiveValues", some (returnActiveValues api)),
        (some "returnEffectiveValues", some (returnEffectiveValues api)),
        (some "validateTmplPath", some (validateTmplPath api)),
        (some "validateTmplValPath", some (validateTmplValPath api)),
        (some "showCfg", some (showCfg api lib opts)),
        (some "loadFile", some (loadFile api)),
        (none, none) ] ∧
    (∀ (k : Nat) (e : OpT σ) (name : String),
      (ops api lib opts)[k]? = some e → e.op_name = some name →
        lookupOp name (ops api lib opts) 0 = some (k : Int) ∧
        ∀ nargv, main api lib opts (name :: nargv) = dispatch api (k : Int) e nargv) ∧
    (∀ (oname : String) (nargv : List String),
      (∀ e ∈ ops api lib opts, e.op_name ≠ some oname) →
        main api lib opts (oname :: nargv)
          = some { stdout := "", stderr := "Invalid operation\n", status := 1,
                   invoked := [] }) ∧
    main api lib opts []
      = some { stdout := "", stderr := "Must specify operation\n", status := 1,
               invoked := [] } := by
  refine ⟨?_, rfl, ?_, ?_, rfl⟩
  · have hnames : (ops api lib opts).filterMap (·.op_name) = [
        "getSessionEnv", "getEditEnv", "getEditUpEnv", "getEditResetEnv", "editLevelAtRoot", "getCompletionEnv", "getEditLevelStr", "markSessionUnsaved", "unmarkSessionUnsaved", "sessionUnsaved", "sessionChanged", "teardownSession", "setupSession", "inSession", "exists", "existsActive", "existsEffective", "listNodes", "listActiveNodes", "listEffectiveNodes", "returnValue", "returnActiveValue", "returnEffectiveValue", "returnValues", "returnActiveValues", "returnEffectiveValues", "validateTmplPath", "validateTmplValPath", "showCfg", "loadFile" ] := rfl
    rw [hnames]
    decide
  · intro k e name he hn
    exact ⟨lookupOp_ops api lib opts k e name he hn,
      fun nargv => main_eq_dispatch api lib opts k e name nargv he hn⟩
  · intro oname nargv hno
    exact main_invalid_operation api lib opts oname nargv hno

/-- C10 on the sample store: `exists` selects entry 14, the one with the
function `exists`; `Exists`, which differs in case, is no operation. -/
theorem operation_lookup_witness :
    (lookupOp "exists" (ops (sampleStore []) sampleLib noOptions) 0 = some 14 ∧
     ∀ nargv, main (sampleStore []) sampleLib noOptions ("exists" :: nargv)
       = dispatch (sampleStore []) 14
           (OP "exists" («exists» (sampleStore [])) (-1) none 1
             (some "Must specify config path") false) nargv) ∧
    main (sampleStore []) sampleLib noOptions ["Exists", "system"]
      = some { stdout := "", stderr := "Invalid operation\n", status := 1,
               invoked := [] } :=
  ⟨(operation_lookup (sampleStore []) sampleLib noOptions).2.2.1 14 _ "exists" rfl rfl,
   (operation_lookup (sampleStore []) sampleLib noOptions).2.2.2.1 "Exists" ["system"]
     (by decide)⟩

end cli_shell_api
